import Mathlib

/-!
Verification development for the `absmach/propeller` FL-demo scripts.

The definitions below are shallow embeddings of the Python sources
`examples/fl-demo/provision-smq.py` and `examples/fl-demo/test-fl-http.py`.
External HTTP services are modelled as oracles (immutable response maps);
a `none` response stands for a transport exception
(`requests.exceptions.RequestException`), and `some s` for a reply with
HTTP status `s`.  Floating point numbers of the scripts are idealised as
rationals; `random.uniform a b` is modelled as `a + (b - a) * u k` where
`u : Nat → ℚ` is the pseudorandom unit stream and `k` the number of draws
made so far, which matches CPython's `a + (b-a)*random()`.
-/

/-! ### Service readiness probe (`provision-smq.py`, `wait_for_service`, lines 30-43) -/

/-- One liveness attempt outcome is "up" when the GET succeeded with
status 200 or 404 (`response.status_code in [200, 404]`); an exception
(`none`) or any other status is not up. -/
def serviceUp (r : Option Nat) : Bool :=
  match r with
  | some s => decide (s = 200 ∨ s = 404)
  | none => false

/-- `wait_for_service`: starting at attempt `i` with `n` attempts left,
return true at the first "up" response, false once attempts are exhausted. -/
def waitForService (resp : Nat → Option Nat) : Nat → Nat → Bool
  | _, 0 => false
  | i, n + 1 => if serviceUp (resp i) then true else waitForService resp (i + 1) n

/-- `main` of `provision-smq.py`, lines 413-421: the four readiness gates.
Each `wait_for_service` failure is followed by `sys.exit(1)`; modelled as
`Except.error 1`.  `Except.ok ()` means control reached the login step. -/
def provisionGate (wUsers wDomains wClients wChannels : Nat → Option Nat) :
    Except Nat Unit :=
  if waitForService wUsers 0 30 then
    if waitForService wDomains 0 30 then
      if waitForService wClients 0 30 then
        if waitForService wChannels 0 30 then Except.ok ()
        else Except.error 1
      else Except.error 1
    else Except.error 1
  else Except.error 1

/-! ### FL round workflow (`test-fl-http.py`, `main`) -/

/-- A global model as exchanged with the model registry:
`{"w": [...], "b": ...}`. -/
structure Model where
  w : List ℚ
  b : ℚ
deriving DecidableEq

/-- The fallback model substituted when the registry fetch fails
(`test-fl-http.py` lines 135 and 138). -/
def defaultModel : Model := { w := [0, 0, 0], b := 0 }

/-- `random.uniform a b` given the unit draw `u`. -/
def uniformQ (a b u : ℚ) : ℚ := a + (b - a) * u

/-- The version string derivation of `test-fl-http.py` lines 124-126:
`version = "0"; if "v" in model_ref: version = model_ref.split("v")[-1]`. -/
def versionOf (ref : String) : String :=
  if ref.contains 'v' then (ref.splitOn "v").getLastD "" else "0"

/-- The simulated local training step (`test-fl-http.py` lines 144-147):
each weight and the bias get an independent `random.uniform(-0.1, 0.1)`
perturbation; returns the updated model and the advanced draw cursor. -/
def computeLocalUpdate (m : Model) (u : Nat → ℚ) (c : Nat) : Model × Nat :=
  ({ w := m.w.mapIdx fun i wi => wi + uniformQ (-(1/10)) (1/10) (u (c + i)),
     b := m.b + uniformQ (-(1/10)) (1/10) (u (c + m.w.length)) },
   c + m.w.length + 1)

/-- The pair (model delta, reported loss) a participant produces from base
model `m` at draw cursor `c`: the loss draw `random.uniform(0.4, 0.6)` is
made after the update draws, while building the payload (line 157). -/
def localOutcome (m : Model) (u : Nat → ℚ) (c : Nat) : Model × ℚ :=
  ((computeLocalUpdate m u c).1,
   uniformQ (2/5) (3/5) (u (computeLocalUpdate m u c).2))

/-- The `/update` payload of `test-fl-http.py` lines 151-160.  The round
id is fixed for the whole run, so it is not repeated here. -/
structure UpdatePayload where
  propletId : String
  baseModelUri : String
  numSamples : Nat
  loss : ℚ
  update : Model
deriving DecidableEq

/-- Outcome of the per-participant loop body (lines 104-174): either the
participant was skipped at the task fetch (`continue`), or an update
payload was posted, `sent` recording whether the POST returned 200. -/
inductive PResult where
  | skipped : PResult
  | submitted : UpdatePayload → Bool → PResult
deriving DecidableEq

/-- HTTP requests issued by the per-participant loop, in order. -/
inductive FLReq where
  | fetchTask : String → FLReq
  | fetchModel : String → FLReq
  | postUpdate : String → FLReq
deriving DecidableEq

/-- The world the round workflow runs against.  `taskResp pid` is
`some model_ref` when `GET /task` answers 200 with that task body and
`none` on a non-200 status or an exception (both `continue`);
`modelFetch v` is `some m` when `GET /models/v` answers 200, `none`
otherwise (both fall back to the default model); `updateResp pid` is the
status of `POST /update` (`none` = exception). -/
structure FLWorld where
  healthManager : Option Nat
  healthCoordinator : Option Nat
  healthRegistry : Option Nat
  healthAggregator : Option Nat
  experimentResp : Option Nat
  taskResp : String → Option String
  modelFetch : String → Option Model
  updateResp : String → Option Nat
  draws : Nat → ℚ

/-- One iteration of the participant loop (`test-fl-http.py` lines
104-174): task fetch failure skips the participant with no retry;
otherwise the model is fetched (default on failure), the local update is
computed and the update is posted.  Returns the outcome, the advanced
draw cursor, and the requests issued. -/
def participantStep (w : FLWorld) (pid : String) (c : Nat) :
    PResult × Nat × List FLReq :=
  match w.taskResp pid with
  | none => (PResult.skipped, c, [FLReq.fetchTask pid])
  | some ref =>
    let ver := versionOf ref
    let m := (w.modelFetch ver).getD defaultModel
    let upd := (computeLocalUpdate m w.draws c).1
    let c1 := (computeLocalUpdate m w.draws c).2
    let loss := uniformQ (2/5) (3/5) (w.draws c1)
    let ok := decide (w.updateResp pid = some 200)
    (PResult.submitted
      { propletId := pid, baseModelUri := ref, numSamples := 512,
        loss := loss, update := upd } ok,
     c1 + 1,
     [FLReq.fetchTask pid, FLReq.fetchModel ver, FLReq.postUpdate pid])

/-- The participant loop over a list of proplet ids, threading the draw
cursor and accumulating results and the request log in list order. -/
def flRoundAux (w : FLWorld) : List String → Nat → List (String × PResult) × List FLReq
  | [], _ => ([], [])
  | p :: ps, c =>
    let r := participantStep w p c
    let rest := flRoundAux w ps r.2.1
    ((p, r.1) :: rest.1, r.2.2 ++ rest.2)

/-- The whole round loop starting from draw cursor 0. -/
def flRound (w : FLWorld) (ps : List String) : List (String × PResult) × List FLReq :=
  flRoundAux w ps 0

/-- The participant list hard-coded in the experiment config (line 68). -/
def participants0 : List String := ["proplet-1", "proplet-2", "proplet-3"]

/-- Pre-flight check of `test-fl-http.py` lines 27-37: each service must
answer 200 on `/health`; a non-200 status or an exception ends the run
with `sys.exit(1)`. -/
def preflightOk (w : FLWorld) : Bool :=
  decide (w.healthManager = some 200) && decide (w.healthCoordinator = some 200) &&
  decide (w.healthRegistry = some 200) && decide (w.healthAggregator = some 200)

/-- Whether the `POST /fl/experiments` of step 1 (lines 79-94) lets the
run proceed: only statuses 200 and 201 do; any other status and any
exception hit `sys.exit(1)`. -/
def experimentOk (w : FLWorld) : Bool :=
  match w.experimentResp with
  | some s => decide (s = 200 ∨ s = 201)
  | none => false

/-- `main` of `test-fl-http.py` from the pre-flight to the end of the
participant loop.  The ensure-initial-model block (lines 39-60) and the
post-loop status prints (lines 176-204) issue requests but never alter
control flow, so they do not appear in the result. -/
def flMain (w : FLWorld) : Except Nat (List (String × PResult) × List FLReq) :=
  if preflightOk w then
    if experimentOk w then Except.ok (flRound w participants0)
    else Except.error 1
  else Except.error 1

/-- The request log a single participant contributes (independent of the
draw cursor). -/
def perPLog (w : FLWorld) (p : String) : List FLReq :=
  match w.taskResp p with
  | none => [FLReq.fetchTask p]
  | some ref => [FLReq.fetchTask p, FLReq.fetchModel (versionOf ref), FLReq.postUpdate p]

/-! ### Theorems about the readiness probe (claim C5) -/

theorem waitForService_true_iff (resp : Nat → Option Nat) :
    ∀ (n i : Nat), waitForService resp i n = true ↔ ∃ j, j < n ∧ serviceUp (resp (i + j)) = true := by
  intro n
  induction n with
  | zero => intro i; simp [waitForService]
  | succ n ih =>
    intro i
    by_cases h : serviceUp (resp i) = true
    · simp only [waitForService, h, if_true, true_iff]
      exact ⟨0, Nat.succ_pos n, by simpa using h⟩
    · simp only [waitForService, h, if_false, Bool.false_eq_true]
      rw [ih (i + 1)]
      constructor
      · rintro ⟨j, hj, hup⟩
        exact ⟨j + 1, Nat.succ_lt_succ hj, by simpa [Nat.add_assoc, Nat.add_comm 1 j] using hup⟩
      · rintro ⟨j, hj, hup⟩
        cases j with
        | zero => exact absurd (by simpa using hup) h
        | succ j =>
          exact ⟨j, Nat.lt_of_succ_lt_succ hj, by simpa [Nat.add_assoc, Nat.add_comm 1 j] using hup⟩

/-- Claim C5: the readiness probe returns true iff, within the bounded
number of attempts, some liveness check answers with a status coded as up
(200 or 404 both count; exceptions and other statuses do not), it returns
false exactly when every attempt is exhausted without such a response,
and `main` then terminates the run with exit status 1 (modelled as
`Except.error 1`) whenever any of its four service probes fails. -/
theorem c5_readiness_probe (resp : Nat → Option Nat) (n : Nat) :
    (waitForService resp 0 n = true ↔ ∃ j, j < n ∧ serviceUp (resp j) = true) ∧
    (∀ wU wD wC wCh : Nat → Option Nat,
      (waitForService wU 0 30 = false ∨ waitForService wD 0 30 = false ∨
       waitForService wC 0 30 = false ∨ waitForService wCh 0 30 = false) →
      provisionGate wU wD wC wCh = Except.error 1) := by
  constructor
  · simpa using waitForService_true_iff resp n 0
  · intro wU wD wC wCh h
    unfold provisionGate
    rcases h with h | h | h | h
    · simp [h]
    · by_cases hU : waitForService wU 0 30 <;> simp [hU, h]
    · by_cases hU : waitForService wU 0 30 <;>
        by_cases hD : waitForService wD 0 30 <;> simp [hU, hD, h]
    · by_cases hU : waitForService wU 0 30 <;>
        by_cases hD : waitForService wD 0 30 <;>
          by_cases hC : waitForService wC 0 30 <;> simp [hU, hD, hC, h]

/-- A reply stream that answers 404 at the third attempt and a stream
that always answers 500, used to witness C5 concretely. -/
def respUp404 : Nat → Option Nat := fun i => if i = 2 then some 404 else some 500

def respDown : Nat → Option Nat := fun _ => some 500

theorem c5_readiness_probe_witness :
    waitForService respUp404 0 30 = true ∧
    provisionGate respDown respUp404 respUp404 respUp404 = Except.error 1 := by
  refine ⟨(c5_readiness_probe respUp404 30).1.mpr ⟨2, by decide, by decide⟩, ?_⟩
  exact (c5_readiness_probe respUp404 30).2 respDown respUp404 respUp404 respUp404
    (Or.inl (by decide))

/-! ### Theorems about the round workflow (claims C3, C4, C6, C10) -/

/-- A run in which every service is healthy and every request succeeds. -/
def wOk : FLWorld :=
  { healthManager := some 200, healthCoordinator := some 200,
    healthRegistry := some 200, healthAggregator := some 200,
    experimentResp := some 201,
    taskResp := fun _ => some "fl/models/global_model_v0",
    modelFetch := fun _ => some defaultModel,
    updateResp := fun _ => some 200,
    draws := fun _ => 0 }

/-- The same run except that the experiment-configuration endpoint
answers 503. -/
def wExpDown : FLWorld := { wOk with experimentResp := some 503 }

/-- Counterexample to C3 as stated: when the experiment-configuration
endpoint answers a non-success status (503 here), `main` of
`test-fl-http.py` calls `sys.exit(1)` (lines 90-94); the orchestrator
does not proceed to fetch tasks for the participants. -/
theorem c3_counterexample : flMain wExpDown = Except.error 1 := by rfl

/-- Claim C3 amended: the experiment-configuration step is a gate, not
best-effort.  Whenever the pre-flight passed, the run proceeds to the
task/update loop exactly when `POST /fl/experiments` answered 200 or
201; on any other status or a transport error the whole run terminates
with exit status 1. -/
theorem c3_experiment_gate (w : FLWorld) :
    (preflightOk w = true → experimentOk w = true →
      flMain w = Except.ok (flRound w participants0)) ∧
    (preflightOk w = true → experimentOk w = false → flMain w = Except.error 1) := by
  constructor
  · intro h1 h2; simp [flMain, h1, h2]
  · intro h1 h2; simp [flMain, h1, h2]

theorem c3_experiment_gate_witness :
    flMain wOk = Except.ok (flRound wOk participants0) ∧
    flMain wExpDown = Except.error 1 := by
  exact ⟨(c3_experiment_gate wOk).1 (by decide) (by decide),
         (c3_experiment_gate wExpDown).2 (by decide) (by decide)⟩

/-- Counterexample to C4 as stated: with the same base model (and the
hyperparameters never entering the computation at all), two runs of the
local-update simulation whose pseudorandom streams differ produce
different model deltas and a different loss metric, because lines
144-147 and 157 of `test-fl-http.py` draw from `random.uniform`. -/
theorem c4_counterexample :
    localOutcome defaultModel (fun _ => 0) 0 ≠ localOutcome defaultModel (fun _ => 1/2) 0 := by
  intro h
  have h2 := congrArg Prod.snd h
  simp only [localOutcome] at h2
  norm_num [uniformQ, computeLocalUpdate, defaultModel] at h2

/-- Claim C4 amended: the local-update computation is deterministic given
the base model together with the consumed pseudorandom draws: whenever
the two draw streams agree on the window of `|w| + 2` draws the step
consumes (one per weight, one for the bias, one for the loss), the model
delta and loss coincide; the reported sample count is the constant 512
in every run. -/
theorem c4_deterministic_given_draws (m : Model) (u1 u2 : Nat → ℚ) (c1 c2 : Nat)
    (h : ∀ i, i < m.w.length + 2 → u1 (c1 + i) = u2 (c2 + i)) :
    localOutcome m u1 c1 = localOutcome m u2 c2 := by
  have hw : m.w.mapIdx (fun i wi => wi + uniformQ (-(1/10)) (1/10) (u1 (c1 + i))) =
      m.w.mapIdx (fun i wi => wi + uniformQ (-(1/10)) (1/10) (u2 (c2 + i))) := by
    apply List.ext_getElem
    · simp
    · intro i hi1 hi2
      have hlen : i < m.w.length := by simpa using hi1
      have := h i (by omega)
      simp [List.getElem_mapIdx, this]
  have hb : u1 (c1 + m.w.length) = u2 (c2 + m.w.length) := h m.w.length (by omega)
  have hcur : (computeLocalUpdate m u1 c1).2 = c1 + m.w.length + 1 := rfl
  have hl : u1 (c1 + m.w.length + 1) = u2 (c2 + m.w.length + 1) := by
    have := h (m.w.length + 1) (by omega)
    simpa [Nat.add_assoc] using this
  simp only [localOutcome, computeLocalUpdate]
  rw [hw, hb, hl]

/-- A constant draw stream used to instantiate C4's amended theorem. -/
def uThird : Nat → ℚ := fun _ => 1/3

theorem c4_deterministic_given_draws_witness :
    localOutcome defaultModel uThird 0 = localOutcome defaultModel uThird 5 := by
  exact c4_deterministic_given_draws defaultModel uThird uThird 0 5
    (by intro i _; rfl)

theorem flRoundAux_fst_map (w : FLWorld) :
    ∀ (ps : List String) (c : Nat), (flRoundAux w ps c).1.map Prod.fst = ps := by
  intro ps
  induction ps with
  | nil => intro c; rfl
  | cons p ps ih => intro c; simp [flRoundAux, ih]

theorem participantStep_log (w : FLWorld) (p : String) (c : Nat) :
    (participantStep w p c).2.2 = perPLog w p := by
  unfold participantStep perPLog
  cases w.taskResp p <;> rfl

theorem flRoundAux_log (w : FLWorld) :
    ∀ (ps : List String) (c : Nat), (flRoundAux w ps c).2 = (ps.map (perPLog w)).flatten := by
  intro ps
  induction ps with
  | nil => intro c; rfl
  | cons p ps ih => intro c; simp [flRoundAux, ih, participantStep_log]

theorem flRoundAux_skipped (w : FLWorld) :
    ∀ (ps : List String) (c : Nat) (p : String), w.taskResp p = none →
      ∀ r, (p, r) ∈ (flRoundAux w ps c).1 → r = PResult.skipped := by
  intro ps
  induction ps with
  | nil => intro c p _ r hr; simp [flRoundAux] at hr
  | cons q ps ih =>
    intro c p hp r hr
    simp only [flRoundAux, List.mem_cons] at hr
    rcases hr with hr | hr
    · rw [Prod.mk.injEq] at hr
      obtain ⟨hpq, hrr⟩ := hr
      rw [hrr]
      unfold participantStep
      rw [← hpq, hp]
    · exact ih _ p hp r hr

/-- Claim C6: in every round, each participant is processed exactly once
in list order; a participant whose task fetch fails contributes a single
task request to the log (no retry, no model fetch, no update post) and
ends as skipped, every other participant gets the full
task/model/update exchange, and the run never turns a per-participant
failure into a fatal error: under passing pre-flight and experiment
gates, `main` completes with the round results whatever `taskResp` is. -/
theorem c6_partial_failure_tolerance (w : FLWorld) (ps : List String) :
    ((flRound w ps).1.map Prod.fst = ps) ∧
    ((flRound w ps).2 = (ps.map (perPLog w)).flatten) ∧
    (∀ p, w.taskResp p = none → ∀ r, (p, r) ∈ (flRound w ps).1 → r = PResult.skipped) ∧
    (∀ p, w.taskResp p = none → perPLog w p = [FLReq.fetchTask p]) ∧
    (preflightOk w = true → experimentOk w = true →
      flMain w = Except.ok (flRound w participants0)) := by
  refine ⟨flRoundAux_fst_map w ps 0, flRoundAux_log w ps 0, ?_, ?_, ?_⟩
  · intro p hp r hr
    exact flRoundAux_skipped w ps 0 p hp r hr
  · intro p hp; simp [perPLog, hp]
  · intro h1 h2; simp [flMain, h1, h2]

/-- A run in which the task fetch fails for `proplet-2` only. -/
def wTaskFail : FLWorld :=
  { wOk with taskResp := fun p => if p = "proplet-2" then none else some "fl/models/global_model_v0" }

theorem c6_partial_failure_tolerance_witness :
    ((flRound wTaskFail participants0).1.map Prod.fst = participants0) ∧
    (∀ r, ("proplet-2", r) ∈ (flRound wTaskFail participants0).1 → r = PResult.skipped) ∧
    flMain wTaskFail = Except.ok (flRound wTaskFail participants0) := by
  refine ⟨(c6_partial_failure_tolerance wTaskFail participants0).1, ?_, ?_⟩
  · intro r hr
    exact (c6_partial_failure_tolerance wTaskFail participants0).2.2.1 "proplet-2" (by rfl) r hr
  · exact (c6_partial_failure_tolerance wTaskFail participants0).2.2.2.2 (by decide) (by decide)

/-- Claim C10: when the task fetch succeeded but the model-registry fetch
fails for the resolved version, the participant is not skipped: the
local update is computed from the default zero model
`{"w": [0.0, 0.0, 0.0], "b": 0.0}` and the update is still posted for
that participant. -/
theorem c10_default_model_on_fetch_failure (w : FLWorld) (pid ref : String) (c : Nat)
    (h1 : w.taskResp pid = some ref) (h2 : w.modelFetch (versionOf ref) = none) :
    participantStep w pid c =
      (PResult.submitted
        { propletId := pid, baseModelUri := ref, numSamples := 512,
          loss := uniformQ (2/5) (3/5) (w.draws (computeLocalUpdate defaultModel w.draws c).2),
          update := (computeLocalUpdate defaultModel w.draws c).1 }
        (decide (w.updateResp pid = some 200)),
       (computeLocalUpdate defaultModel w.draws c).2 + 1,
       [FLReq.fetchTask pid, FLReq.fetchModel (versionOf ref), FLReq.postUpdate pid]) := by
  unfold participantStep
  rw [h1]
  simp [h2]

/-- A run in which the model registry is down (every fetch fails). -/
def wRegistryDown : FLWorld := { wOk with modelFetch := fun _ => none }

theorem c10_default_model_on_fetch_failure_witness :
    participantStep wRegistryDown "proplet-1" 0 =
      (PResult.submitted
        { propletId := "proplet-1", baseModelUri := "fl/models/global_model_v0",
          numSamples := 512,
          loss := uniformQ (2/5) (3/5)
            (wRegistryDown.draws (computeLocalUpdate defaultModel wRegistryDown.draws 0).2),
          update := (computeLocalUpdate defaultModel wRegistryDown.draws 0).1 }
        (decide (wRegistryDown.updateResp "proplet-1" = some 200)),
       (computeLocalUpdate defaultModel wRegistryDown.draws 0).2 + 1,
       [FLReq.fetchTask "proplet-1", FLReq.fetchModel (versionOf "fl/models/global_model_v0"),
        FLReq.postUpdate "proplet-1"]) := by
  exact c10_default_model_on_fetch_failure wRegistryDown "proplet-1"
    "fl/models/global_model_v0" 0 (by rfl) (by rfl)

/-! ### Resource reconciliation (`provision-smq.py`, lines 76-267)

Each ensure operation runs against an immutable server oracle; request
logs record the HTTP calls in issue order.  A `none` status stands for a
transport exception. -/

/-- A domain object as returned by the registry. -/
structure DomainRec where
  id : String
  name : String
  route : String
deriving DecidableEq

/-- A client object; `secret` models `credentials.secret`. -/
structure ClientRec where
  id : String
  name : String
  secret : Option String
deriving DecidableEq

/-- A channel object. -/
structure ChannelRec where
  id : String
  name : String
deriving DecidableEq

/-- Requests issued by the reconciler, in order. -/
inductive ProvReq where
  | listDomains : ProvReq
  | postDomain : ProvReq
  | postClient : String → ProvReq
  | listClients : String → ProvReq
  | postChannel : ProvReq
  | listChannels : ProvReq
deriving DecidableEq

/-- The registry the provisioning script runs against.
`listDomainsResp = none` models an exception or non-2xx on
`GET /domains` (swallowed, treated as no match, line 99-101);
`postDomainStatus = none` models a transport exception on the create. -/
structure ProvWorld where
  listDomainsResp : Option (List DomainRec)
  postDomainStatus : Option Nat
  postDomainBody : DomainRec
  postDomainError : String
  postClientStatus : String → Option Nat
  postClientBody : String → ClientRec
  listClientsResp : String → Option (List ClientRec)
  postChannelStatus : Option Nat
  postChannelBody : ChannelRec
  listChannelsResp : Option (List ChannelRec)

def DOMAIN_NAME : String := "fl-demo"

def DOMAIN_ROUTE : String := "fl-demo"

def CHANNEL_NAME : String := "fl"

/-- Whether `needle in hay` holds for Python strings: `needle` occurs as
a contiguous substring of `hay`. -/
def strHasSub (hay needle : String) : Bool :=
  decide (needle.data <:+: hay.data)

/-- `get_existing_domain` (lines 76-101): list all domains, return the
first whose route is `DOMAIN_ROUTE` or whose name is `DOMAIN_NAME`; any
failure of the GET itself yields no match. -/
def getExistingDomain (w : ProvWorld) : Option DomainRec :=
  match w.listDomainsResp with
  | none => none
  | some ds => ds.find? fun d => decide (d.route = DOMAIN_ROUTE) || decide (d.name = DOMAIN_NAME)

/-- `create_domain` (lines 104-165).  The lookup runs BEFORE any creation
attempt; creation is only tried when the lookup found nothing, and a 400
whose lowercased body mentions the route, or a 409, triggers a second
lookup.  Any other status (a raised error or an unexpected 2xx) ends in
`None`.  Returns the resolved domain and the issued request log. -/
def createDomain (w : ProvWorld) : Option DomainRec × List ProvReq :=
  match getExistingDomain w with
  | some d => (some d, [ProvReq.listDomains])
  | none =>
    match w.postDomainStatus with
    | none => (none, [ProvReq.listDomains, ProvReq.postDomain])
    | some 201 => (some w.postDomainBody, [ProvReq.listDomains, ProvReq.postDomain])
    | some 400 =>
      if strHasSub w.postDomainError.toLower "route not available" ||
         strHasSub w.postDomainError.toLower "route" then
        (getExistingDomain w, [ProvReq.listDomains, ProvReq.postDomain, ProvReq.listDomains])
      else (none, [ProvReq.listDomains, ProvReq.postDomain])
    | some 409 =>
      (getExistingDomain w, [ProvReq.listDomains, ProvReq.postDomain, ProvReq.listDomains])
    | some _ => (none, [ProvReq.listDomains, ProvReq.postDomain])

/-- `create_client` (lines 168-216): creation first; on 409 fall back to
a name-filtered list and select the first client with the desired name;
a failing fallback list (exception / non-2xx) or an empty match yields
`None`; any other creation status yields `None`. -/
def createClient (w : ProvWorld) (name : String) : Option ClientRec × List ProvReq :=
  match w.postClientStatus name with
  | none => (none, [ProvReq.postClient name])
  | some 201 => (some (w.postClientBody name), [ProvReq.postClient name])
  | some 409 =>
    match w.listClientsResp name with
    | none => (none, [ProvReq.postClient name, ProvReq.listClients name])
    | some cs =>
      (cs.find? fun c => decide (c.name = name),
       [ProvReq.postClient name, ProvReq.listClients name])
  | some _ => (none, [ProvReq.postClient name])

/-- `create_channel` (lines 219-267): same ensure pattern as clients,
with the fixed channel name. -/
def createChannel (w : ProvWorld) : Option ChannelRec × List ProvReq :=
  match w.postChannelStatus with
  | none => (none, [ProvReq.postChannel])
  | some 201 => (some w.postChannelBody, [ProvReq.postChannel])
  | some 409 =>
    match w.listChannelsResp with
    | none => (none, [ProvReq.postChannel, ProvReq.listChannels])
    | some cs =>
      (cs.find? fun c => decide (c.name = CHANNEL_NAME),
       [ProvReq.postChannel, ProvReq.listChannels])
  | some _ => (none, [ProvReq.postChannel])

/-! ### Theorems about the ensure pattern (claim C1) -/

/-- A registry in which the demo domain already exists. -/
def wDomainExists : ProvWorld :=
  { listDomainsResp := some [{ id := "d-1", name := "fl-demo", route := "fl-demo" }],
    postDomainStatus := some 201,
    postDomainBody := { id := "d-new", name := "fl-demo", route := "fl-demo" },
    postDomainError := "",
    postClientStatus := fun _ => some 201,
    postClientBody := fun n => { id := "c-1", name := n, secret := some "s-1" },
    listClientsResp := fun _ => some [],
    postChannelStatus := some 201,
    postChannelBody := { id := "ch-1", name := "fl" },
    listChannelsResp := some [] }

/-- Counterexample to C1 as stated: for the Domain the ensure operation
does NOT first attempt creation.  With the demo domain already present,
`create_domain` issues exactly one request — the listing — and never
posts a create; the conflict-then-fallback order stated by the claim is
the client/channel behaviour only. -/
theorem c1_counterexample :
    (createDomain wDomainExists).2 = [ProvReq.listDomains] ∧
    ProvReq.postDomain ∉ (createDomain wDomainExists).2 := by
  constructor
  · rfl
  · intro h
    rw [(by rfl : (createDomain wDomainExists).2 = [ProvReq.listDomains])] at h
    simp at h

/-- Claim C1 amended: Clients and the Channel follow create-first-then-
lookup-on-409, returning `None` when the fallback finds no name match;
the Domain instead looks up existing domains (by route or name) before
any creation attempt, creates only when the lookup found nothing, and
repeats the lookup after a 400 mentioning the route or a 409 — so a
conflicting create with an empty registry listing resolves to `None`. -/
theorem c1_ensure_pattern (w : ProvWorld) (n : String) :
    (∀ d, getExistingDomain w = some d → createDomain w = (some d, [ProvReq.listDomains])) ∧
    (getExistingDomain w = none → w.postDomainStatus = some 201 →
      createDomain w = (some w.postDomainBody, [ProvReq.listDomains, ProvReq.postDomain])) ∧
    (getExistingDomain w = none → w.postDomainStatus = some 409 →
      createDomain w = (none, [ProvReq.listDomains, ProvReq.postDomain, ProvReq.listDomains])) ∧
    (getExistingDomain w = none → w.postDomainStatus = some 400 →
      strHasSub w.postDomainError.toLower "route" = true →
      createDomain w = (none, [ProvReq.listDomains, ProvReq.postDomain, ProvReq.listDomains])) ∧
    (w.postClientStatus n = some 201 →
      createClient w n = (some (w.postClientBody n), [ProvReq.postClient n])) ∧
    (∀ cs, w.postClientStatus n = some 409 → w.listClientsResp n = some cs →
      createClient w n = (cs.find? fun c => decide (c.name = n),
        [ProvReq.postClient n, ProvReq.listClients n])) ∧
    (w.postChannelStatus = some 201 →
      createChannel w = (some w.postChannelBody, [ProvReq.postChannel])) ∧
    (∀ cs, w.postChannelStatus = some 409 → w.listChannelsResp = some cs →
      createChannel w = (cs.find? fun c => decide (c.name = CHANNEL_NAME),
        [ProvReq.postChannel, ProvReq.listChannels])) := by
  refine ⟨?_, ?_, ?_, ?_, ?_, ?_, ?_, ?_⟩
  · intro d hd; simp [createDomain, hd]
  · intro hd hs; simp [createDomain, hd, hs]
  · intro hd hs; simp [createDomain, hd, hs]
  · intro hd hs hr; simp [createDomain, hd, hs, hr]
  · intro hs; simp [createClient, hs]
  · intro cs hs hl; simp [createClient, hs, hl]
  · intro hs; simp [createChannel, hs]
  · intro cs hs hl; simp [createChannel, hs, hl]

/-- A registry in which everything conflicts and the listings are empty,
so every fallback lookup fails to find a match. -/
def wConflictEmpty : ProvWorld :=
  { wDomainExists with
    listDomainsResp := some [],
    postDomainStatus := some 409,
    postClientStatus := fun _ => some 409,
    postChannelStatus := some 409 }

theorem c1_ensure_pattern_witness :
    createDomain wDomainExists =
      (some { id := "d-1", name := "fl-demo", route := "fl-demo" }, [ProvReq.listDomains]) ∧
    createDomain wConflictEmpty =
      (none, [ProvReq.listDomains, ProvReq.postDomain, ProvReq.listDomains]) ∧
    createClient wConflictEmpty "manager" =
      (none, [ProvReq.postClient "manager", ProvReq.listClients "manager"]) ∧
    createChannel wConflictEmpty =
      (none, [ProvReq.postChannel, ProvReq.listChannels]) := by
  refine ⟨(c1_ensure_pattern wDomainExists "manager").1 _ (by rfl), ?_, ?_, ?_⟩
  · exact (c1_ensure_pattern wConflictEmpty "manager").2.2.1 (by rfl) (by rfl)
  · have h := (c1_ensure_pattern wConflictEmpty "manager").2.2.2.2.2.1 [] (by rfl) (by rfl)
    simpa using h
  · have h := (c1_ensure_pattern wConflictEmpty "manager").2.2.2.2.2.2.2 [] (by rfl) (by rfl)
    simpa using h

/-! ### Configuration patcher (`provision-smq.py`, `update_compose_file`, lines 306-405)

The patterns of the source are
`r'(VAR:\s*\$\x7b\x7bVAR:-)([a-f0-9-]+)(\x7d\x7d)'` for the domain and
channel ids (plain raw strings, so `\x7b\x7b` matches two literal brace
characters) and `rf'(VAR:\s*\$\x7b\x7b\x7bVAR\x7d:-)([a-f0-9-]+)(\x7d\x7d)'`
for the client credentials (f-strings, where the doubled braces collapse
to one literal brace each).  `re.sub` with a replacement function
rewrites every non-overlapping occurrence left to right with
`group(1) + value + group(3)`.  The engine below implements exactly
these patterns; greedy `\s*` and `[a-f0-9-]+` are maximal runs because
`$` is not whitespace and the closing brace is not in the class. -/

/-- Python `\s` on the ASCII range. -/
def isSpaceCh (c : Char) : Bool :=
  decide (c = ' ') || decide (c = '\t') || decide (c = '\n') ||
  decide (c = '\r') || decide (c = '\x0b') || decide (c = '\x0c')

/-- The regex character class `[a-f0-9-]` of the default-value group. -/
def isHexDash (c : Char) : Bool :=
  (decide ('a' ≤ c) && decide (c ≤ 'f')) || (decide ('0' ≤ c) && decide (c ≤ '9')) ||
  decide (c = '-')

/-- Strip the exact prefix `p` from `s`, or fail. -/
def dropExact : List Char → List Char → Option (List Char)
  | [], s => some s
  | _ :: _, [] => none
  | p :: ps, c :: cs => if p = c then dropExact ps cs else none

/-- Split into the maximal leading run satisfying `f` and the rest. -/
def takeWhileSplit (f : Char → Bool) : List Char → List Char × List Char
  | [] => ([], [])
  | c :: cs =>
    if f c then
      let r := takeWhileSplit f cs
      (c :: r.1, r.2)
    else ([], c :: cs)

/-- The literal dollar-brace opener: doubled for the plain-string
domain/channel patterns, single for the f-string client patterns. -/
def openBr (db : Bool) : List Char :=
  if db then ['$', '\x7b', '\x7b'] else ['$', '\x7b']

/-- The matching closer. -/
def closeBr (db : Bool) : List Char :=
  if db then ['\x7d', '\x7d'] else ['\x7d']

/-- Try the whole pattern at the head of `s`.  On success return the
matched whitespace run, the default-value group and the suffix after
the full match. -/
def tryMatch (var : List Char) (db : Bool) (s : List Char) :
    Option (List Char × List Char × List Char) :=
  match dropExact (var ++ [':']) s with
  | none => none
  | some s1 =>
    let ws := takeWhileSplit isSpaceCh s1
    match dropExact (openBr db) ws.2 with
    | none => none
    | some s3 =>
      match dropExact (var ++ [':', '-']) s3 with
      | none => none
      | some s4 =>
        let dv := takeWhileSplit isHexDash s4
        if dv.1 = [] then none
        else
          match dropExact (closeBr db) dv.2 with
          | none => none
          | some s6 => some (ws.1, dv.1, s6)

/-- `re.sub` of the pattern, scanning left to right without overlap and
replacing each match by `group(1) + v + group(3)`.  `fuel` only bounds
the recursion; it is instantiated with the input length, which every
step strictly decreases. -/
def substFuel (var v : List Char) (db : Bool) : Nat → List Char → List Char
  | 0, s => s
  | _ + 1, [] => []
  | fuel + 1, c :: rest =>
    match tryMatch var db (c :: rest) with
    | none => c :: substFuel var v db fuel rest
    | some r =>
      var ++ ':' :: (r.1 ++ openBr db ++ var ++ ':' :: '-' ::
        (v ++ closeBr db ++ substFuel var v db fuel r.2.2))

/-- The substitution on character lists. -/
def substW (var v : List Char) (db : Bool) (s : List Char) : List Char :=
  substFuel var v db s.length s

/-- The substitution on strings: one `re.sub` call of the source. -/
def substVar (var v : String) (db : Bool) (content : String) : String :=
  String.mk (substW var.data v.data db content.data)

/-- The local filesystem state seen by `update_compose_file`:
`compose.yaml` and `compose.yaml.bak` contents (absent = `none`). -/
structure FS where
  compose : Option String
  backup : Option String
deriving DecidableEq

/-- The `client_mapping` dict (lines 316-336): the three proplets all
map to the same `PROPLET_CLIENT_ID` / `PROPLET_CLIENT_KEY` variable
names.  The dict's per-proplet `section` entry is carried in the source
but never read by any code path, so it does not appear here. -/
def clientMapping (n : String) : Option (String × String) :=
  if n = "manager" then some ("MANAGER_CLIENT_ID", "MANAGER_CLIENT_KEY")
  else if n = "proplet-1" ∨ n = "proplet-2" ∨ n = "proplet-3" then
    some ("PROPLET_CLIENT_ID", "PROPLET_CLIENT_KEY")
  else none

/-- The per-client credential rewrite (lines 362-391): skipped when the
name is unmapped, the id is empty or the secret is missing (`"N/A"`);
otherwise the id pattern then the key pattern are substituted over the
whole document. -/
def applyClient (content : String) (n : String) (c : ClientRec) : String :=
  match clientMapping n with
  | none => content
  | some p =>
    if c.id = "" ∨ c.secret.getD "N/A" = "N/A" then content
    else substVar p.2 (c.secret.getD "N/A") false (substVar p.1 c.id false content)

/-- The pure content transformation of `update_compose_file` (lines
338-391): the four domain/channel substitutions followed by the client
loop in dict order. -/
def patchContent (clients : List (String × ClientRec)) (domainId channelId : String)
    (content : String) : String :=
  let c1 := substVar "MANAGER_DOMAIN_ID" domainId true content
  let c2 := substVar "PROPLET_DOMAIN_ID" domainId true c1
  let c3 := substVar "MANAGER_CHANNEL_ID" channelId true c2
  let c4 := substVar "PROPLET_CHANNEL_ID" channelId true c3
  clients.foldl (fun acc pr => applyClient acc pr.1 pr.2) c4

/-- `update_compose_file` (lines 306-405) as a file-state transformer:
missing file → report false and change nothing; unchanged content →
report false and change nothing; changed content → delete any previous
backup, rename the original to the backup and write the new content. -/
def updateComposeFile (clients : List (String × ClientRec)) (domainId channelId : String)
    (fs : FS) : Bool × FS :=
  match fs.compose with
  | none => (false, fs)
  | some content =>
    let c := patchContent clients domainId channelId content
    if c = content then (false, fs)
    else (true, { compose := some c, backup := some content })

/-! ### Theorems about the patcher's write/backup policy (claims C7, C2) -/

/-- Claim C7: the patcher writes the target file only when the
substitution pass changed at least one default; when it does overwrite,
the original content becomes the (single-generation) backup — replacing
whatever backup existed — and when nothing changed, both the file and
any existing backup are left untouched; a missing file also changes
nothing. -/
theorem c7_write_only_on_change (clients : List (String × ClientRec)) (dI chI : String)
    (fs : FS) (content : String) (h : fs.compose = some content) :
    ((updateComposeFile clients dI chI fs).1 = true ↔
      patchContent clients dI chI content ≠ content) ∧
    (patchContent clients dI chI content ≠ content →
      updateComposeFile clients dI chI fs =
        (true, { compose := some (patchContent clients dI chI content),
                 backup := some content })) ∧
    (patchContent clients dI chI content = content →
      updateComposeFile clients dI chI fs = (false, fs)) ∧
    (∀ b, updateComposeFile clients dI chI { compose := none, backup := b } =
      (false, { compose := none, backup := b })) := by
  refine ⟨?_, ?_, ?_, ?_⟩
  · unfold updateComposeFile
    rw [h]
    by_cases hc : patchContent clients dI chI content = content <;> simp [hc]
  · intro hc
    unfold updateComposeFile
    rw [h]
    simp [hc]
  · intro hc
    unfold updateComposeFile
    rw [h]
    simp [hc]
  · intro b; rfl

/-- A two-line compose document with stale proplet credentials. -/
def doc0 : String :=
  "PROPLET_CLIENT_ID: $\x7bPROPLET_CLIENT_ID:-aaa\x7d\nPROPLET_CLIENT_KEY: $\x7bPROPLET_CLIENT_KEY:-bbb\x7d\n"

/-- The same document after patching with the credentials of
`clients2`. -/
def doc1 : String :=
  "PROPLET_CLIENT_ID: $\x7bPROPLET_CLIENT_ID:-c1d2\x7d\nPROPLET_CLIENT_KEY: $\x7bPROPLET_CLIENT_KEY:-e3f4\x7d\n"

/-- A resolved-clients dict with one proplet. -/
def clients2 : List (String × ClientRec) :=
  [("proplet-1", { id := "c1d2", name := "proplet-1", secret := some "e3f4" })]

/-- The filesystem before the first patch: compose file present, no
backup. -/
def fs0 : FS := { compose := some doc0, backup := none }

theorem c7_write_only_on_change_witness :
    updateComposeFile clients2 "d0" "ch0" fs0 =
      (true, { compose := some doc1, backup := some doc0 }) := by
  have hp : patchContent clients2 "d0" "ch0" doc0 = doc1 := by decide
  have h := (c7_write_only_on_change clients2 "d0" "ch0" fs0 doc0 rfl).2.1
    (by rw [hp]; decide)
  rw [hp] at h
  exact h

/-- Counterexample to C2 as stated: the first pass changes the file and
records `doc0` as the backup; the second pass with the same inputs finds
nothing to change and returns without touching the file state — in
particular NO new backup is created (a new backup would hold `doc1`,
the pass-two original, but the state is unchanged with backup `doc0`). -/
theorem c2_counterexample :
    (updateComposeFile clients2 "d0" "ch0" fs0).1 = true ∧
    (updateComposeFile clients2 "d0" "ch0" fs0).2 =
      { compose := some doc1, backup := some doc0 } ∧
    doc1 ≠ doc0 ∧
    updateComposeFile clients2 "d0" "ch0" (updateComposeFile clients2 "d0" "ch0" fs0).2 =
      (false, (updateComposeFile clients2 "d0" "ch0" fs0).2) := by
  refine ⟨by decide, by decide, by decide, by decide⟩

/-- Claim C2 amended: a second application with the same resolved
identifiers and secrets leaves the configuration file's content
unchanged, and no new backup is created on that second pass: whenever
the substitution pass yields the content unchanged, the patcher reports
no change and leaves the whole file state — backup included — exactly
as it was. -/
theorem c2_second_pass_no_backup (clients : List (String × ClientRec)) (dI chI : String)
    (fs : FS) (content : String) (h1 : fs.compose = some content)
    (h2 : patchContent clients dI chI content = content) :
    updateComposeFile clients dI chI fs = (false, fs) := by
  unfold updateComposeFile
  rw [h1]
  simp [h2]

theorem c2_second_pass_no_backup_witness :
    updateComposeFile clients2 "d0" "ch0" { compose := some doc1, backup := some doc0 } =
      (false, { compose := some doc1, backup := some doc0 }) := by
  exact c2_second_pass_no_backup clients2 "d0" "ch0" _ doc1 rfl (by decide)

/-! ### Structural lemmas for the substitution engine -/

theorem dropExact_append (p t : List Char) : dropExact p (p ++ t) = some t := by
  induction p with
  | nil => rfl
  | cons c cs ih => simp [dropExact, ih]

theorem dropExact_some_length :
    ∀ (p s r : List Char), dropExact p s = some r → s.length = p.length + r.length := by
  intro p
  induction p with
  | nil =>
    intro s r h
    simp [dropExact] at h
    simp [h]
  | cons c cs ih =>
    intro s r h
    cases s with
    | nil => simp [dropExact] at h
    | cons x xs =>
      by_cases hc : c = x
      · simp only [dropExact, if_pos hc] at h
        have := ih xs r h
        simp [this]
        omega
      · simp [dropExact, hc] at h

theorem takeWhileSplit_snd_length (f : Char → Bool) :
    ∀ s : List Char, (takeWhileSplit f s).2.length ≤ s.length := by
  intro s
  induction s with
  | nil => simp [takeWhileSplit]
  | cons c cs ih =>
    by_cases hc : f c
    · simp only [takeWhileSplit, hc, if_true]
      exact Nat.le_trans ih (Nat.le_succ _)
    · simp [takeWhileSplit, hc]

theorem takeWhileSplit_stop (f : Char → Bool) :
    ∀ (d : List Char) (c : Char) (t : List Char), (∀ x ∈ d, f x = true) → f c = false →
      takeWhileSplit f (d ++ c :: t) = (d, c :: t) := by
  intro d
  induction d with
  | nil => intro c t _ hc; simp [takeWhileSplit, hc]
  | cons x xs ih =>
    intro c t hd hc
    have hx : f x = true := hd x (List.mem_cons_self x xs)
    simp only [List.cons_append, takeWhileSplit, hx, if_true, List.append_eq]
    rw [ih c t (fun y hy => hd y (List.mem_cons_of_mem x hy)) hc]

theorem tryMatch_nil (var : List Char) (db : Bool) : tryMatch var db [] = none := by
  cases var <;> rfl

theorem tryMatch_after_lt (var : List Char) (db : Bool) (s ws d after : List Char)
    (h : tryMatch var db s = some (ws, d, after)) : after.length < s.length := by
  unfold tryMatch at h
  cases h1 : dropExact (var ++ [':']) s with
  | none => rw [h1] at h; simp at h
  | some s1 =>
    rw [h1] at h
    have hs1 : s1.length < s.length := by
      have := dropExact_some_length _ _ _ h1
      simp [List.length_append] at this
      omega
    simp only at h
    cases h3 : dropExact (openBr db) (takeWhileSplit isSpaceCh s1).2 with
    | none => rw [h3] at h; simp at h
    | some s3 =>
      rw [h3] at h
      simp only at h
      have hws := takeWhileSplit_snd_length isSpaceCh s1
      have hs3 : s3.length ≤ (takeWhileSplit isSpaceCh s1).2.length := by
        have := dropExact_some_length _ _ _ h3
        omega
      cases h4 : dropExact (var ++ [':', '-']) s3 with
      | none => rw [h4] at h; simp at h
      | some s4 =>
        rw [h4] at h
        simp only at h
        have hs4 : s4.length ≤ s3.length := by
          have := dropExact_some_length _ _ _ h4
          omega
        have hdv := takeWhileSplit_snd_length isHexDash s4
        by_cases h5 : (takeWhileSplit isHexDash s4).1 = []
        · rw [if_pos h5] at h; simp at h
        · rw [if_neg h5] at h
          cases h6 : dropExact (closeBr db) (takeWhileSplit isHexDash s4).2 with
          | none => rw [h6] at h; simp at h
          | some s6 =>
            rw [h6] at h
            have hs6 : s6.length ≤ (takeWhileSplit isHexDash s4).2.length := by
              have := dropExact_some_length _ _ _ h6
              omega
            have heq : after = s6 := by
              simp only [Option.some.injEq, Prod.mk.injEq] at h
              exact h.2.2.symm
            subst heq
            omega

theorem substFuel_congr (var v : List Char) (db : Bool) :
    ∀ (f1 f2 : Nat) (s : List Char), s.length ≤ f1 → s.length ≤ f2 →
      substFuel var v db f1 s = substFuel var v db f2 s := by
  intro f1
  induction f1 with
  | zero =>
    intro f2 s h1 _
    have hs : s = [] := List.eq_nil_of_length_eq_zero (Nat.le_zero.mp h1)
    subst hs
    cases f2 <;> rfl
  | succ n ih =>
    intro f2 s h1 h2
    cases s with
    | nil => cases f2 <;> rfl
    | cons c r =>
      cases f2 with
      | zero => simp at h2
      | succ m =>
        have hr1 : r.length ≤ n := by simpa using h1
        have hr2 : r.length ≤ m := by simpa using h2
        cases htm : tryMatch var db (c :: r) with
        | none => simp only [substFuel, htm]; rw [ih m r hr1 hr2]
        | some val =>
          obtain ⟨ws, d, after⟩ := val
          have hlt := tryMatch_after_lt var db (c :: r) ws d after htm
          have ha1 : after.length ≤ n := by simp at hlt; omega
          have ha2 : after.length ≤ m := by simp at hlt; omega
          simp only [substFuel, htm]
          rw [ih m after ha1 ha2]

theorem substW_nil (var v : List Char) (db : Bool) : substW var v db [] = [] := rfl

theorem substW_cons_none (var v : List Char) (db : Bool) (c : Char) (r : List Char)
    (h : tryMatch var db (c :: r) = none) :
    substW var v db (c :: r) = c :: substW var v db r := by
  show substFuel var v db (c :: r).length (c :: r) = c :: substFuel var v db r.length r
  simp only [List.length_cons, substFuel, h]

theorem substW_match (var v : List Char) (db : Bool) (s ws d after : List Char)
    (h : tryMatch var db s = some (ws, d, after)) :
    substW var v db s = var ++ ':' :: (ws ++ openBr db ++ var ++ ':' :: '-' ::
      (v ++ closeBr db ++ substW var v db after)) := by
  cases s with
  | nil => rw [tryMatch_nil] at h; simp at h
  | cons c r =>
    have hlt := tryMatch_after_lt var db (c :: r) ws d after h
    show substFuel var v db (c :: r).length (c :: r) = _
    simp only [List.length_cons, substFuel, h]
    rw [substFuel_congr var v db r.length after.length after (by simp at hlt; omega) (Nat.le_refl _)]
    rfl

/-! ### A bounded match checker

`matchFailsOn var db l = true` certifies that the pattern cannot match
at the head of `l ++ t` for ANY continuation `t`: the simulation either
finds a definite mismatch inside `l` (`PRes.bad`) or would have to read
past the end of `l` (`PRes.more`, not definite).  This lets concrete
document segments be certified inert by computation while the default
values spliced between them stay symbolic. -/

inductive PRes where
  | bad : PRes
  | more : PRes
  | okRest : List Char → PRes
deriving DecidableEq

/-- `dropExact` on a bounded prefix. -/
def dropExactP : List Char → List Char → PRes
  | [], s => PRes.okRest s
  | _ :: _, [] => PRes.more
  | p :: ps, c :: cs => if p = c then dropExactP ps cs else PRes.bad

/-- `takeWhileSplit` on a bounded prefix: `none` when the run reaches
the end of the input (its true extent would depend on the
continuation). -/
def takeWhileP (f : Char → Bool) : List Char → Option (List Char × List Char)
  | [] => none
  | c :: cs =>
    if f c then
      match takeWhileP f cs with
      | none => none
      | some r => some (c :: r.1, r.2)
    else some ([], c :: cs)

/-- Run the whole pattern match on the bounded prefix `l`; `true` means
the match definitely fails there whatever follows `l`. -/
def matchFailsOn (var : List Char) (db : Bool) (l : List Char) : Bool :=
  match dropExactP (var ++ [':']) l with
  | PRes.bad => true
  | PRes.more => false
  | PRes.okRest l1 =>
    match takeWhileP isSpaceCh l1 with
    | none => false
    | some r1 =>
      match dropExactP (openBr db) r1.2 with
      | PRes.bad => true
      | PRes.more => false
      | PRes.okRest l3 =>
        match dropExactP (var ++ [':', '-']) l3 with
        | PRes.bad => true
        | PRes.more => false
        | PRes.okRest l4 =>
          match takeWhileP isHexDash l4 with
          | none => false
          | some r2 =>
            if r2.1 = [] then true
            else
              match dropExactP (closeBr db) r2.2 with
              | PRes.bad => true
              | PRes.more => false
              | PRes.okRest _ => false

theorem dropExactP_bad :
    ∀ (p l : List Char), dropExactP p l = PRes.bad → ∀ t, dropExact p (l ++ t) = none := by
  intro p
  induction p with
  | nil => intro l h; simp [dropExactP] at h
  | cons c cs ih =>
    intro l h t
    cases l with
    | nil => simp [dropExactP] at h
    | cons x xs =>
      by_cases hc : c = x
      · simp only [dropExactP, if_pos hc] at h
        simp only [List.cons_append, dropExact, if_pos hc]
        exact ih xs h t
      · simp [List.cons_append, dropExact, hc]

theorem dropExactP_ok :
    ∀ (p l r : List Char), dropExactP p l = PRes.okRest r →
      ∀ t, dropExact p (l ++ t) = some (r ++ t) := by
  intro p
  induction p with
  | nil =>
    intro l r h t
    simp [dropExactP] at h
    simp [dropExact, h]
  | cons c cs ih =>
    intro l r h t
    cases l with
    | nil => simp [dropExactP] at h
    | cons x xs =>
      by_cases hc : c = x
      · simp only [dropExactP, if_pos hc] at h
        simp only [List.cons_append, dropExact, if_pos hc]
        exact ih xs r h t
      · simp [dropExactP, hc] at h

theorem takeWhileP_some (f : Char → Bool) :
    ∀ (l a b : List Char), takeWhileP f l = some (a, b) →
      ∀ t, takeWhileSplit f (l ++ t) = (a, b ++ t) := by
  intro l
  induction l with
  | nil => intro a b h; simp [takeWhileP] at h
  | cons c cs ih =>
    intro a b h t
    by_cases hc : f c
    · simp only [takeWhileP, if_pos hc] at h
      cases hr : takeWhileP f cs with
      | none => rw [hr] at h; simp at h
      | some r =>
        rw [hr] at h
        simp only [Option.some.injEq, Prod.mk.injEq] at h
        simp only [List.cons_append, takeWhileSplit, hc, if_true, List.append_eq]
        rw [ih r.1 r.2 (by rw [hr]) t]
        simp [← h.1, ← h.2]
    · simp only [takeWhileP, if_neg hc] at h
      simp only [Option.some.injEq, Prod.mk.injEq] at h
      simp only [List.cons_append, takeWhileSplit, hc, if_false]
      rw [← h.1, ← h.2]
      simp

theorem matchFailsOn_sound (var : List Char) (db : Bool) (l : List Char)
    (h : matchFailsOn var db l = true) (t : List Char) :
    tryMatch var db (l ++ t) = none := by
  unfold matchFailsOn at h
  unfold tryMatch
  cases h1 : dropExactP (var ++ [':']) l with
  | bad => rw [dropExactP_bad _ _ h1 t]
  | more => rw [h1] at h; simp at h
  | okRest l1 =>
    rw [h1] at h
    simp only at h
    rw [dropExactP_ok _ _ _ h1 t]
    simp only
    cases h2 : takeWhileP isSpaceCh l1 with
    | none => rw [h2] at h; simp at h
    | some r1 =>
      rw [h2] at h
      simp only at h
      rw [takeWhileP_some _ _ _ _ h2 t]
      simp only
      cases h3 : dropExactP (openBr db) r1.2 with
      | bad => rw [dropExactP_bad _ _ h3 t]
      | more => rw [h3] at h; simp at h
      | okRest l3 =>
        rw [h3] at h
        simp only at h
        rw [dropExactP_ok _ _ _ h3 t]
        simp only
        cases h4 : dropExactP (var ++ [':', '-']) l3 with
        | bad => rw [dropExactP_bad _ _ h4 t]
        | more => rw [h4] at h; simp at h
        | okRest l4 =>
          rw [h4] at h
          simp only at h
          rw [dropExactP_ok _ _ _ h4 t]
          simp only
          cases h5 : takeWhileP isHexDash l4 with
          | none => rw [h5] at h; simp at h
          | some r2 =>
            rw [h5] at h
            simp only at h
            rw [takeWhileP_some _ _ _ _ h5 t]
            simp only
            by_cases h6 : r2.1 = []
            · rw [if_pos h6]
            · rw [if_neg h6] at h
              rw [if_neg h6]
              cases h7 : dropExactP (closeBr db) r2.2 with
              | bad => rw [dropExactP_bad _ _ h7 t]
              | more => rw [h7] at h; simp at h
              | okRest l6 => rw [h7] at h; simp at h

/-- Every position of `l` is a definite non-match, whatever follows. -/
def failsAll (var : List Char) (db : Bool) : List Char → Bool
  | [] => true
  | c :: r => matchFailsOn var db (c :: r) && failsAll var db r

theorem substW_skip (var v : List Char) (db : Bool) :
    ∀ (l : List Char), failsAll var db l = true →
      ∀ t, substW var v db (l ++ t) = l ++ substW var v db t := by
  intro l
  induction l with
  | nil => intro _ t; simp
  | cons c r ih =>
    intro h t
    simp only [failsAll, Bool.and_eq_true] at h
    have hnm : tryMatch var db ((c :: r) ++ t) = none := matchFailsOn_sound var db _ h.1 t
    simp only [List.cons_append] at hnm ⊢
    rw [substW_cons_none var v db c (r ++ t) hnm, ih h.2 t]

theorem tryMatch_cons_ne (x : Char) (xs : List Char) (db : Bool) (c : Char) (t : List Char)
    (hne : x ≠ c) : tryMatch (x :: xs) db (c :: t) = none := by
  unfold tryMatch
  have : dropExact ((x :: xs) ++ [':']) (c :: t) = none := by
    simp [dropExact, hne]
  rw [this]

theorem substW_skip_hexrun (var v : List Char) (db : Bool) (x : Char)
    (hov : var.head? = some x) (hx : isHexDash x = false) :
    ∀ (d : List Char), (∀ c ∈ d, isHexDash c = true) →
      ∀ t, substW var v db (d ++ t) = d ++ substW var v db t := by
  intro d
  induction d with
  | nil => intro _ t; simp
  | cons c r ih =>
    intro hd t
    obtain ⟨y, ys, hvar⟩ : ∃ y ys, var = y :: ys := by
      cases var with
      | nil => simp at hov
      | cons y ys => exact ⟨y, ys, rfl⟩
    have hxy : y = x := by rw [hvar] at hov; simpa using hov
    have hc : isHexDash c = true := hd c (List.mem_cons_self c r)
    have hne : y ≠ c := by
      intro he
      rw [hxy] at he
      rw [← he] at hc
      rw [hx] at hc
      exact Bool.false_ne_true hc
    have hnm : tryMatch var db (c :: (r ++ t)) = none := by
      rw [hvar]
      exact tryMatch_cons_ne y ys db c (r ++ t) hne
    simp only [List.cons_append]
    rw [substW_cons_none var v db c (r ++ t) hnm,
      ih (fun z hz => hd z (List.mem_cons_of_mem c hz)) t]

theorem tryMatch_hit (var : List Char) (db : Bool) (d t : List Char)
    (hd : ∀ c ∈ d, isHexDash c = true) (hne : d ≠ []) :
    tryMatch var db
      (var ++ ':' :: ' ' :: (openBr db ++ (var ++ ':' :: '-' :: (d ++ (closeBr db ++ t))))) =
      some ([' '], d, t) := by
  have e1 : var ++ ':' :: ' ' :: (openBr db ++ (var ++ ':' :: '-' :: (d ++ (closeBr db ++ t)))) =
      (var ++ [':']) ++ (' ' :: (openBr db ++ (var ++ ':' :: '-' :: (d ++ (closeBr db ++ t))))) := by
    simp
  have e2 : takeWhileSplit isSpaceCh
      (' ' :: (openBr db ++ (var ++ ':' :: '-' :: (d ++ (closeBr db ++ t))))) =
      ([' '], openBr db ++ (var ++ ':' :: '-' :: (d ++ (closeBr db ++ t)))) := by
    cases db <;>
      exact takeWhileSplit_stop isSpaceCh [' '] '$' _ (by intro x hx; simp at hx; simp [hx, isSpaceCh])
        (by decide)
  have e3 : var ++ ':' :: '-' :: (d ++ (closeBr db ++ t)) =
      (var ++ [':', '-']) ++ (d ++ (closeBr db ++ t)) := by
    simp
  have e4 : takeWhileSplit isHexDash (d ++ (closeBr db ++ t)) = (d, closeBr db ++ t) := by
    cases db with
    | false =>
      have : closeBr false ++ t = '\x7d' :: t := by simp [closeBr]
      rw [this]
      exact takeWhileSplit_stop isHexDash d '\x7d' t hd (by decide)
    | true =>
      have : closeBr true ++ t = '\x7d' :: ('\x7d' :: t) := by simp [closeBr]
      rw [this]
      exact takeWhileSplit_stop isHexDash d '\x7d' ('\x7d' :: t) hd (by decide)
  unfold tryMatch
  rw [e1, dropExact_append]
  simp only
  rw [e2]
  simp only
  rw [dropExact_append]
  simp only
  rw [e3, dropExact_append]
  simp only
  rw [e4]
  simp only
  rw [if_neg hne, dropExact_append]

/-! ### Placeholder lines

`lineFor var db d` renders the one-line form
`VAR: $\x7bVAR:-d\x7d\n` (doubled braces when `db`) that the compose
file uses for each patched variable. -/

/-- Everything before the default value. -/
def lineA (var : List Char) (db : Bool) : List Char :=
  var ++ ':' :: ' ' :: (openBr db ++ (var ++ [':', '-']))

/-- Everything after the default value. -/
def lineB (db : Bool) : List Char := closeBr db ++ ['\n']

/-- A whole placeholder line with default `d`. -/
def lineFor (var : List Char) (db : Bool) (d : List Char) : List Char :=
  lineA var db ++ (d ++ lineB db)

theorem lineFor_append (var : List Char) (db : Bool) (d rest : List Char) :
    lineFor var db d ++ rest =
      var ++ ':' :: ' ' :: (openBr db ++ (var ++ ':' :: '-' :: (d ++ (closeBr db ++ ('\n' :: rest))))) := by
  simp [lineFor, lineA, lineB, List.append_assoc]

theorem substW_line_hit (var v : List Char) (db : Bool) (d rest : List Char)
    (hd : ∀ c ∈ d, isHexDash c = true) (hne : d ≠ [])
    (hnl : matchFailsOn var db ['\n'] = true) :
    substW var v db (lineFor var db d ++ rest) = lineFor var db v ++ substW var v db rest := by
  rw [lineFor_append]
  have hm := tryMatch_hit var db d ('\n' :: rest) hd hne
  rw [substW_match var v db _ _ _ _ hm]
  have hn : substW var v db ('\n' :: rest) = '\n' :: substW var v db rest := by
    have hno := matchFailsOn_sound var db ['\n'] hnl rest
    exact substW_cons_none var v db '\n' rest (by simpa using hno)
  rw [hn, lineFor_append var db v (substW var v db rest)]
  simp [List.append_assoc]

theorem substW_line_skip (ov v : List Char) (db2 : Bool) (x : Char)
    (hov : ov.head? = some x) (hx : isHexDash x = false)
    (var : List Char) (db : Bool) (d rest : List Char)
    (hA : failsAll ov db2 (lineA var db) = true)
    (hB : failsAll ov db2 (lineB db) = true)
    (hd : ∀ c ∈ d, isHexDash c = true) :
    substW ov v db2 (lineFor var db d ++ rest) = lineFor var db d ++ substW ov v db2 rest := by
  have e : lineFor var db d ++ rest = lineA var db ++ (d ++ (lineB db ++ rest)) := by
    simp [lineFor, List.append_assoc]
  rw [e, substW_skip ov v db2 _ hA, substW_skip_hexrun ov v db2 x hov hx d hd,
    substW_skip ov v db2 _ hB]
  simp [lineFor, List.append_assoc]

/-- Bool form of "every char is in the `[a-f0-9-]` class". -/
def allHex (l : List Char) : Bool := l.all isHexDash

theorem allHex_mem (l : List Char) (h : allHex l = true) : ∀ c ∈ l, isHexDash c = true := by
  simpa [allHex, List.all_eq_true] using h

/-! ### The proplet-credentials document (claim C8) -/

def PCID : List Char := "PROPLET_CLIENT_ID".data

def PCKEY : List Char := "PROPLET_CLIENT_KEY".data

/-- A compose document holding the three proplet sections' credential
placeholders (id and key per section), in the standard single-brace
syntax. -/
def doc8L (d1 k1 d2 k2 d3 k3 : List Char) : List Char :=
  lineFor PCID false d1 ++ (lineFor PCKEY false k1 ++ (lineFor PCID false d2 ++
    (lineFor PCKEY false k2 ++ (lineFor PCID false d3 ++ (lineFor PCKEY false k3 ++ [])))))

theorem doc8L_skip (ov v : List Char) (db2 : Bool) (x : Char)
    (hov : ov.head? = some x) (hx : isHexDash x = false)
    (hA1 : failsAll ov db2 (lineA PCID false) = true)
    (hA2 : failsAll ov db2 (lineA PCKEY false) = true)
    (hB : failsAll ov db2 (lineB false) = true)
    (d1 k1 d2 k2 d3 k3 : List Char)
    (h1 : allHex d1 = true) (h2 : allHex k1 = true) (h3 : allHex d2 = true)
    (h4 : allHex k2 = true) (h5 : allHex d3 = true) (h6 : allHex k3 = true) :
    substW ov v db2 (doc8L d1 k1 d2 k2 d3 k3) = doc8L d1 k1 d2 k2 d3 k3 := by
  unfold doc8L
  rw [substW_line_skip ov v db2 x hov hx PCID false d1 _ hA1 hB (allHex_mem _ h1),
    substW_line_skip ov v db2 x hov hx PCKEY false k1 _ hA2 hB (allHex_mem _ h2),
    substW_line_skip ov v db2 x hov hx PCID false d2 _ hA1 hB (allHex_mem _ h3),
    substW_line_skip ov v db2 x hov hx PCKEY false k2 _ hA2 hB (allHex_mem _ h4),
    substW_line_skip ov v db2 x hov hx PCID false d3 _ hA1 hB (allHex_mem _ h5),
    substW_line_skip ov v db2 x hov hx PCKEY false k3 _ hA2 hB (allHex_mem _ h6),
    substW_nil]

theorem doc8L_subst_id (v d1 k1 d2 k2 d3 k3 : List Char)
    (hd1 : allHex d1 = true) (hn1 : d1 ≠ []) (hd2 : allHex d2 = true) (hn2 : d2 ≠ [])
    (hd3 : allHex d3 = true) (hn3 : d3 ≠ [])
    (hk1 : allHex k1 = true) (hk2 : allHex k2 = true) (hk3 : allHex k3 = true) :
    substW PCID v false (doc8L d1 k1 d2 k2 d3 k3) = doc8L v k1 v k2 v k3 := by
  unfold doc8L
  rw [substW_line_hit PCID v false d1 _ (allHex_mem _ hd1) hn1 (by decide),
    substW_line_skip PCID v false 'P' (by decide) (by decide) PCKEY false k1 _
      (by decide) (by decide) (allHex_mem _ hk1),
    substW_line_hit PCID v false d2 _ (allHex_mem _ hd2) hn2 (by decide),
    substW_line_skip PCID v false 'P' (by decide) (by decide) PCKEY false k2 _
      (by decide) (by decide) (allHex_mem _ hk2),
    substW_line_hit PCID v false d3 _ (allHex_mem _ hd3) hn3 (by decide),
    substW_line_skip PCID v false 'P' (by decide) (by decide) PCKEY false k3 _
      (by decide) (by decide) (allHex_mem _ hk3),
    substW_nil]

theorem doc8L_subst_key (v d1 k1 d2 k2 d3 k3 : List Char)
    (hd1 : allHex d1 = true) (hd2 : allHex d2 = true) (hd3 : allHex d3 = true)
    (hk1 : allHex k1 = true) (hn1 : k1 ≠ []) (hk2 : allHex k2 = true) (hn2 : k2 ≠ [])
    (hk3 : allHex k3 = true) (hn3 : k3 ≠ []) :
    substW PCKEY v false (doc8L d1 k1 d2 k2 d3 k3) = doc8L d1 v d2 v d3 v := by
  unfold doc8L
  rw [substW_line_skip PCKEY v false 'P' (by decide) (by decide) PCID false d1 _
      (by decide) (by decide) (allHex_mem _ hd1),
    substW_line_hit PCKEY v false k1 _ (allHex_mem _ hk1) hn1 (by decide),
    substW_line_skip PCKEY v false 'P' (by decide) (by decide) PCID false d2 _
      (by decide) (by decide) (allHex_mem _ hd2),
    substW_line_hit PCKEY v false k2 _ (allHex_mem _ hk2) hn2 (by decide),
    substW_line_skip PCKEY v false 'P' (by decide) (by decide) PCID false d3 _
      (by decide) (by decide) (allHex_mem _ hd3),
    substW_line_hit PCKEY v false k3 _ (allHex_mem _ hk3) hn3 (by decide),
    substW_nil]

/-- The document at the String level. -/
def doc8 (d1 k1 d2 k2 d3 k3 : String) : String :=
  String.mk (doc8L d1.data k1.data d2.data k2.data d3.data k3.data)

theorem data_ne_empty (s : String) (h : s.data ≠ []) : s ≠ "" := by
  intro he
  apply h
  rw [he]

theorem allHex_ne_NA (s : String) (h : allHex s.data = true) : s ≠ "N/A" := by
  intro he
  rw [he] at h
  exact absurd h (by decide)

theorem applyClient_eq (content : String) (n : String) (c : ClientRec)
    (pr : String × String) (hn : clientMapping n = some pr)
    (hid : c.id ≠ "") (hsec : c.secret.getD "N/A" ≠ "N/A") :
    applyClient content n c =
      substVar pr.2 (c.secret.getD "N/A") false (substVar pr.1 c.id false content) := by
  unfold applyClient
  rw [hn]
  simp only
  rw [if_neg (by push_neg; exact ⟨hid, hsec⟩)]

/-- Claim C8: proplet-1, proplet-2 and proplet-3 all map to the same
`PROPLET_CLIENT_ID`/`PROPLET_CLIENT_KEY` variable names, each
substitution rewrites every occurrence of those keys in the document,
and after patching all `PROPLET_CLIENT_ID` and `PROPLET_CLIENT_KEY`
defaults equal the credentials of the last proplet processed
(`proplet-3`), not each proplet's own credentials.  Stated over a
document holding one id and one key placeholder per proplet section and
arbitrary hex/dash-valued defaults and credentials. -/
theorem c8_last_proplet_wins
    (d1 k1 d2 k2 d3 k3 i1 s1 i2 s2 i3 s3 dom ch : String)
    (hd1 : allHex d1.data = true) (hnd1 : d1.data ≠ [])
    (hk1 : allHex k1.data = true) (hnk1 : k1.data ≠ [])
    (hd2 : allHex d2.data = true) (hnd2 : d2.data ≠ [])
    (hk2 : allHex k2.data = true) (hnk2 : k2.data ≠ [])
    (hd3 : allHex d3.data = true) (hnd3 : d3.data ≠ [])
    (hk3 : allHex k3.data = true) (hnk3 : k3.data ≠ [])
    (hi1 : allHex i1.data = true) (hni1 : i1.data ≠ [])
    (hs1 : allHex s1.data = true) (hns1 : s1.data ≠ [])
    (hi2 : allHex i2.data = true) (hni2 : i2.data ≠ [])
    (hs2 : allHex s2.data = true) (hns2 : s2.data ≠ [])
    (hi3 : allHex i3.data = true) (hni3 : i3.data ≠ [])
    (hs3 : allHex s3.data = true) (_hns3 : s3.data ≠ []) :
    clientMapping "proplet-1" = some ("PROPLET_CLIENT_ID", "PROPLET_CLIENT_KEY") ∧
    clientMapping "proplet-2" = some ("PROPLET_CLIENT_ID", "PROPLET_CLIENT_KEY") ∧
    clientMapping "proplet-3" = some ("PROPLET_CLIENT_ID", "PROPLET_CLIENT_KEY") ∧
    patchContent
      [("proplet-1", { id := i1, name := "proplet-1", secret := some s1 }),
       ("proplet-2", { id := i2, name := "proplet-2", secret := some s2 }),
       ("proplet-3", { id := i3, name := "proplet-3", secret := some s3 })]
      dom ch (doc8 d1 k1 d2 k2 d3 k3) = doc8 i3 s3 i3 s3 i3 s3 := by
  refine ⟨by decide, by decide, by decide, ?_⟩
  have q1 : substVar "MANAGER_DOMAIN_ID" dom true (doc8 d1 k1 d2 k2 d3 k3) =
      doc8 d1 k1 d2 k2 d3 k3 :=
    congrArg String.mk (doc8L_skip "MANAGER_DOMAIN_ID".data dom.data true 'M'
      (by decide) (by decide) (by decide) (by decide) (by decide)
      _ _ _ _ _ _ hd1 hk1 hd2 hk2 hd3 hk3)
  have q2 : substVar "PROPLET_DOMAIN_ID" dom true (doc8 d1 k1 d2 k2 d3 k3) =
      doc8 d1 k1 d2 k2 d3 k3 :=
    congrArg String.mk (doc8L_skip "PROPLET_DOMAIN_ID".data dom.data true 'P'
      (by decide) (by decide) (by decide) (by decide) (by decide)
      _ _ _ _ _ _ hd1 hk1 hd2 hk2 hd3 hk3)
  have q3 : substVar "MANAGER_CHANNEL_ID" ch true (doc8 d1 k1 d2 k2 d3 k3) =
      doc8 d1 k1 d2 k2 d3 k3 :=
    congrArg String.mk (doc8L_skip "MANAGER_CHANNEL_ID".data ch.data true 'M'
      (by decide) (by decide) (by decide) (by decide) (by decide)
      _ _ _ _ _ _ hd1 hk1 hd2 hk2 hd3 hk3)
  have q4 : substVar "PROPLET_CHANNEL_ID" ch true (doc8 d1 k1 d2 k2 d3 k3) =
      doc8 d1 k1 d2 k2 d3 k3 :=
    congrArg String.mk (doc8L_skip "PROPLET_CHANNEL_ID".data ch.data true 'P'
      (by decide) (by decide) (by decide) (by decide) (by decide)
      _ _ _ _ _ _ hd1 hk1 hd2 hk2 hd3 hk3)
  have a1 : applyClient (doc8 d1 k1 d2 k2 d3 k3) "proplet-1"
      { id := i1, name := "proplet-1", secret := some s1 } = doc8 i1 s1 i1 s1 i1 s1 := by
    rw [applyClient_eq (doc8 d1 k1 d2 k2 d3 k3) "proplet-1"
      { id := i1, name := "proplet-1", secret := some s1 }
      ("PROPLET_CLIENT_ID", "PROPLET_CLIENT_KEY") (by decide)
      (data_ne_empty i1 hni1) (allHex_ne_NA s1 hs1)]
    show substVar "PROPLET_CLIENT_KEY" s1 false
      (substVar "PROPLET_CLIENT_ID" i1 false (doc8 d1 k1 d2 k2 d3 k3)) = doc8 i1 s1 i1 s1 i1 s1
    have h1 : substVar "PROPLET_CLIENT_ID" i1 false (doc8 d1 k1 d2 k2 d3 k3) =
        doc8 i1 k1 i1 k2 i1 k3 :=
      congrArg String.mk (doc8L_subst_id i1.data d1.data k1.data d2.data k2.data d3.data k3.data
        hd1 hnd1 hd2 hnd2 hd3 hnd3 hk1 hk2 hk3)
    have h2 : substVar "PROPLET_CLIENT_KEY" s1 false (doc8 i1 k1 i1 k2 i1 k3) =
        doc8 i1 s1 i1 s1 i1 s1 :=
      congrArg String.mk (doc8L_subst_key s1.data i1.data k1.data i1.data k2.data i1.data k3.data
        hi1 hi1 hi1 hk1 hnk1 hk2 hnk2 hk3 hnk3)
    rw [h1, h2]
  have a2 : applyClient (doc8 i1 s1 i1 s1 i1 s1) "proplet-2"
      { id := i2, name := "proplet-2", secret := some s2 } = doc8 i2 s2 i2 s2 i2 s2 := by
    rw [applyClient_eq (doc8 i1 s1 i1 s1 i1 s1) "proplet-2"
      { id := i2, name := "proplet-2", secret := some s2 }
      ("PROPLET_CLIENT_ID", "PROPLET_CLIENT_KEY") (by decide)
      (data_ne_empty i2 hni2) (allHex_ne_NA s2 hs2)]
    show substVar "PROPLET_CLIENT_KEY" s2 false
      (substVar "PROPLET_CLIENT_ID" i2 false (doc8 i1 s1 i1 s1 i1 s1)) = doc8 i2 s2 i2 s2 i2 s2
    have h1 : substVar "PROPLET_CLIENT_ID" i2 false (doc8 i1 s1 i1 s1 i1 s1) =
        doc8 i2 s1 i2 s1 i2 s1 :=
      congrArg String.mk (doc8L_subst_id i2.data i1.data s1.data i1.data s1.data i1.data s1.data
        hi1 hni1 hi1 hni1 hi1 hni1 hs1 hs1 hs1)
    have h2 : substVar "PROPLET_CLIENT_KEY" s2 false (doc8 i2 s1 i2 s1 i2 s1) =
        doc8 i2 s2 i2 s2 i2 s2 :=
      congrArg String.mk (doc8L_subst_key s2.data i2.data s1.data i2.data s1.data i2.data s1.data
        hi2 hi2 hi2 hs1 hns1 hs1 hns1 hs1 hns1)
    rw [h1, h2]
  have a3 : applyClient (doc8 i2 s2 i2 s2 i2 s2) "proplet-3"
      { id := i3, name := "proplet-3", secret := some s3 } = doc8 i3 s3 i3 s3 i3 s3 := by
    rw [applyClient_eq (doc8 i2 s2 i2 s2 i2 s2) "proplet-3"
      { id := i3, name := "proplet-3", secret := some s3 }
      ("PROPLET_CLIENT_ID", "PROPLET_CLIENT_KEY") (by decide)
      (data_ne_empty i3 hni3) (allHex_ne_NA s3 hs3)]
    show substVar "PROPLET_CLIENT_KEY" s3 false
      (substVar "PROPLET_CLIENT_ID" i3 false (doc8 i2 s2 i2 s2 i2 s2)) = doc8 i3 s3 i3 s3 i3 s3
    have h1 : substVar "PROPLET_CLIENT_ID" i3 false (doc8 i2 s2 i2 s2 i2 s2) =
        doc8 i3 s2 i3 s2 i3 s2 :=
      congrArg String.mk (doc8L_subst_id i3.data i2.data s2.data i2.data s2.data i2.data s2.data
        hi2 hni2 hi2 hni2 hi2 hni2 hs2 hs2 hs2)
    have h2 : substVar "PROPLET_CLIENT_KEY" s3 false (doc8 i3 s2 i3 s2 i3 s2) =
        doc8 i3 s3 i3 s3 i3 s3 :=
      congrArg String.mk (doc8L_subst_key s3.data i3.data s2.data i3.data s2.data i3.data s2.data
        hi3 hi3 hi3 hs2 hns2 hs2 hns2 hs2 hns2)
    rw [h1, h2]
  simp only [patchContent, List.foldl]
  rw [q1, q2, q3, q4, a1, a2, a3]

theorem c8_last_proplet_wins_witness :
    patchContent
      [("proplet-1", { id := "a1", name := "proplet-1", secret := some "b1" }),
       ("proplet-2", { id := "a2", name := "proplet-2", secret := some "b2" }),
       ("proplet-3", { id := "a3", name := "proplet-3", secret := some "b3" })]
      "d9" "c9" (doc8 "00" "11" "22" "33" "44" "55") = doc8 "a3" "b3" "a3" "b3" "a3" "b3" :=
  (c8_last_proplet_wins "00" "11" "22" "33" "44" "55" "a1" "b1" "a2" "b2" "a3" "b3" "d9" "c9"
    (by decide) (by decide) (by decide) (by decide) (by decide) (by decide)
    (by decide) (by decide) (by decide) (by decide) (by decide) (by decide)
    (by decide) (by decide) (by decide) (by decide) (by decide) (by decide)
    (by decide) (by decide) (by decide) (by decide) (by decide) (by decide)).2.2.2

/-! ### The mixed-syntax document (claim C9) -/

def MDID : List Char := "MANAGER_DOMAIN_ID".data

def PDID : List Char := "PROPLET_DOMAIN_ID".data

def MCHID : List Char := "MANAGER_CHANNEL_ID".data

def PCHID : List Char := "PROPLET_CHANNEL_ID".data

def MCID : List Char := "MANAGER_CLIENT_ID".data

def MCKEY : List Char := "MANAGER_CLIENT_KEY".data

/-- A client-id placeholder whose default `xyz` is outside the
`[a-f0-9-]` class: no pattern ever touches it. -/
def badLine : List Char := lineFor MCID false ['x', 'y', 'z']

/-- A compose document in the standard single-brace syntax throughout:
domain id, channel id (manager and proplet forms) and the manager
client credentials, plus the non-hex-default line. -/
def doc9L (dd pd dc pc mi mk : List Char) : List Char :=
  lineFor MDID false dd ++ (lineFor PDID false pd ++ (lineFor MCHID false dc ++
    (lineFor PCHID false pc ++ (lineFor MCID false mi ++ (lineFor MCKEY false mk ++
      (badLine ++ []))))))

theorem doc9L_skip (ov v : List Char) (db2 : Bool) (x : Char)
    (hov : ov.head? = some x) (hx : isHexDash x = false)
    (hA1 : failsAll ov db2 (lineA MDID false) = true)
    (hA2 : failsAll ov db2 (lineA PDID false) = true)
    (hA3 : failsAll ov db2 (lineA MCHID false) = true)
    (hA4 : failsAll ov db2 (lineA PCHID false) = true)
    (hA5 : failsAll ov db2 (lineA MCID false) = true)
    (hA6 : failsAll ov db2 (lineA MCKEY false) = true)
    (hB : failsAll ov db2 (lineB false) = true)
    (hBad : failsAll ov db2 badLine = true)
    (dd pd dc pc mi mk : List Char)
    (h1 : allHex dd = true) (h2 : allHex pd = true) (h3 : allHex dc = true)
    (h4 : allHex pc = true) (h5 : allHex mi = true) (h6 : allHex mk = true) :
    substW ov v db2 (doc9L dd pd dc pc mi mk) = doc9L dd pd dc pc mi mk := by
  unfold doc9L
  rw [substW_line_skip ov v db2 x hov hx MDID false dd _ hA1 hB (allHex_mem _ h1),
    substW_line_skip ov v db2 x hov hx PDID false pd _ hA2 hB (allHex_mem _ h2),
    substW_line_skip ov v db2 x hov hx MCHID false dc _ hA3 hB (allHex_mem _ h3),
    substW_line_skip ov v db2 x hov hx PCHID false pc _ hA4 hB (allHex_mem _ h4),
    substW_line_skip ov v db2 x hov hx MCID false mi _ hA5 hB (allHex_mem _ h5),
    substW_line_skip ov v db2 x hov hx MCKEY false mk _ hA6 hB (allHex_mem _ h6),
    substW_skip ov v db2 badLine hBad, substW_nil]

theorem doc9L_subst_mcid (v dd pd dc pc mi mk : List Char)
    (h1 : allHex dd = true) (h2 : allHex pd = true) (h3 : allHex dc = true)
    (h4 : allHex pc = true) (h5 : allHex mi = true) (hn5 : mi ≠ [])
    (h6 : allHex mk = true) :
    substW MCID v false (doc9L dd pd dc pc mi mk) = doc9L dd pd dc pc v mk := by
  unfold doc9L
  rw [substW_line_skip MCID v false 'M' (by decide) (by decide) MDID false dd _
      (by decide) (by decide) (allHex_mem _ h1),
    substW_line_skip MCID v false 'M' (by decide) (by decide) PDID false pd _
      (by decide) (by decide) (allHex_mem _ h2),
    substW_line_skip MCID v false 'M' (by decide) (by decide) MCHID false dc _
      (by decide) (by decide) (allHex_mem _ h3),
    substW_line_skip MCID v false 'M' (by decide) (by decide) PCHID false pc _
      (by decide) (by decide) (allHex_mem _ h4),
    substW_line_hit MCID v false mi _ (allHex_mem _ h5) hn5 (by decide),
    substW_line_skip MCID v false 'M' (by decide) (by decide) MCKEY false mk _
      (by decide) (by decide) (allHex_mem _ h6),
    substW_skip MCID v false badLine (by decide), substW_nil]

theorem doc9L_subst_mckey (v dd pd dc pc mi mk : List Char)
    (h1 : allHex dd = true) (h2 : allHex pd = true) (h3 : allHex dc = true)
    (h4 : allHex pc = true) (h5 : allHex mi = true)
    (h6 : allHex mk = true) (hn6 : mk ≠ []) :
    substW MCKEY v false (doc9L dd pd dc pc mi mk) = doc9L dd pd dc pc mi v := by
  unfold doc9L
  rw [substW_line_skip MCKEY v false 'M' (by decide) (by decide) MDID false dd _
      (by decide) (by decide) (allHex_mem _ h1),
    substW_line_skip MCKEY v false 'M' (by decide) (by decide) PDID false pd _
      (by decide) (by decide) (allHex_mem _ h2),
    substW_line_skip MCKEY v false 'M' (by decide) (by decide) MCHID false dc _
      (by decide) (by decide) (allHex_mem _ h3),
    substW_line_skip MCKEY v false 'M' (by decide) (by decide) PCHID false pc _
      (by decide) (by decide) (allHex_mem _ h4),
    substW_line_skip MCKEY v false 'M' (by decide) (by decide) MCID false mi _
      (by decide) (by decide) (allHex_mem _ h5),
    substW_line_hit MCKEY v false mk _ (allHex_mem _ h6) hn6 (by decide),
    substW_skip MCKEY v false badLine (by decide), substW_nil]

/-- The mixed-syntax document at the String level. -/
def doc9 (dd pd dc pc mi mk : String) : String :=
  String.mk (doc9L dd.data pd.data dc.data pc.data mi.data mk.data)

/-- Claim C9: the domain-id and channel-id substitution patterns come
from plain (non-f-string) regexes whose doubled braces match two
literal brace characters, while the client patterns are f-string
regexes matching the single-brace form; hence on a document using the
standard single-brace `$\x7bVAR:-default\x7d` syntax throughout, only
the client credentials are rewritten and every domain-id and channel-id
default is left unchanged — and a default is matched only when it
consists solely of the `[a-f0-9-]` characters (the embedded `xyz`
default line survives even the client-id substitution). -/
theorem c9_single_brace_domains_untouched
    (dd pd dc pc mi mk i s dom ch : String)
    (hdd : allHex dd.data = true) (hpd : allHex pd.data = true)
    (hdc : allHex dc.data = true) (hpc : allHex pc.data = true)
    (hmi : allHex mi.data = true) (hnmi : mi.data ≠ [])
    (hmk : allHex mk.data = true) (hnmk : mk.data ≠ [])
    (hi : allHex i.data = true) (hni : i.data ≠ [])
    (hs : allHex s.data = true) (_hns : s.data ≠ []) :
    patchContent [("manager", { id := i, name := "manager", secret := some s })] dom ch
      (doc9 dd pd dc pc mi mk) = doc9 dd pd dc pc i s := by
  have q1 : substVar "MANAGER_DOMAIN_ID" dom true (doc9 dd pd dc pc mi mk) =
      doc9 dd pd dc pc mi mk :=
    congrArg String.mk (doc9L_skip "MANAGER_DOMAIN_ID".data dom.data true 'M'
      (by decide) (by decide) (by decide) (by decide) (by decide) (by decide)
      (by decide) (by decide) (by decide) (by decide)
      _ _ _ _ _ _ hdd hpd hdc hpc hmi hmk)
  have q2 : substVar "PROPLET_DOMAIN_ID" dom true (doc9 dd pd dc pc mi mk) =
      doc9 dd pd dc pc mi mk :=
    congrArg String.mk (doc9L_skip "PROPLET_DOMAIN_ID".data dom.data true 'P'
      (by decide) (by decide) (by decide) (by decide) (by decide) (by decide)
      (by decide) (by decide) (by decide) (by decide)
      _ _ _ _ _ _ hdd hpd hdc hpc hmi hmk)
  have q3 : substVar "MANAGER_CHANNEL_ID" ch true (doc9 dd pd dc pc mi mk) =
      doc9 dd pd dc pc mi mk :=
    congrArg String.mk (doc9L_skip "MANAGER_CHANNEL_ID".data ch.data true 'M'
      (by decide) (by decide) (by decide) (by decide) (by decide) (by decide)
      (by decide) (by decide) (by decide) (by decide)
      _ _ _ _ _ _ hdd hpd hdc hpc hmi hmk)
  have q4 : substVar "PROPLET_CHANNEL_ID" ch true (doc9 dd pd dc pc mi mk) =
      doc9 dd pd dc pc mi mk :=
    congrArg String.mk (doc9L_skip "PROPLET_CHANNEL_ID".data ch.data true 'P'
      (by decide) (by decide) (by decide) (by decide) (by decide) (by decide)
      (by decide) (by decide) (by decide) (by decide)
      _ _ _ _ _ _ hdd hpd hdc hpc hmi hmk)
  have a1 : applyClient (doc9 dd pd dc pc mi mk) "manager"
      { id := i, name := "manager", secret := some s } = doc9 dd pd dc pc i s := by
    rw [applyClient_eq (doc9 dd pd dc pc mi mk) "manager"
      { id := i, name := "manager", secret := some s }
      ("MANAGER_CLIENT_ID", "MANAGER_CLIENT_KEY") (by decide)
      (data_ne_empty i hni) (allHex_ne_NA s hs)]
    show substVar "MANAGER_CLIENT_KEY" s false
      (substVar "MANAGER_CLIENT_ID" i false (doc9 dd pd dc pc mi mk)) = doc9 dd pd dc pc i s
    have h1 : substVar "MANAGER_CLIENT_ID" i false (doc9 dd pd dc pc mi mk) =
        doc9 dd pd dc pc i mk :=
      congrArg String.mk (doc9L_subst_mcid i.data dd.data pd.data dc.data pc.data mi.data mk.data
        hdd hpd hdc hpc hmi hnmi hmk)
    have h2 : substVar "MANAGER_CLIENT_KEY" s false (doc9 dd pd dc pc i mk) =
        doc9 dd pd dc pc i s :=
      congrArg String.mk (doc9L_subst_mckey s.data dd.data pd.data dc.data pc.data i.data mk.data
        hdd hpd hdc hpc hi hmk hnmk)
    rw [h1, h2]
  simp only [patchContent, List.foldl]
  rw [q1, q2, q3, q4, a1]

theorem c9_single_brace_domains_untouched_witness :
    patchContent [("manager", { id := "a7", name := "manager", secret := some "b8" })]
      "d9" "c9" (doc9 "00" "11" "22" "33" "44" "55") = doc9 "00" "11" "22" "33" "a7" "b8" :=
  c9_single_brace_domains_untouched "00" "11" "22" "33" "44" "55" "a7" "b8" "d9" "c9"
    (by decide) (by decide) (by decide) (by decide) (by decide) (by decide)
    (by decide) (by decide) (by decide) (by decide) (by decide) (by decide)
